import Mathlib

/-!
Verification development for the WiFi captive-portal application
(`wifi_connect.py`).  The Python program is shallowly embedded: each
subprocess call's outcome is an explicit input (the environment), the
mutable `connection_status` field is threaded as explicit state, and the
Flask handlers become pure functions from request and environment to a
response record plus the resulting state.
-/

/-- A scanned WiFi network record, as built by `scan_wifi_networks`
(`{'ssid': ..., 'signal': ..., 'security': ...}`). -/
structure Network where
  ssid : String
  signal : Int
  security : String
deriving DecidableEq, Repr

/-- Python `str.split(c)` on a list of characters: splits at every
occurrence of `c`, keeping empty chunks (`"".split(':') == ['']`,
`":".split(':') == ['', '']`). -/
def splitOnChar (c : Char) : List Char → List (List Char)
  | [] => [[]]
  | x :: xs =>
    match splitOnChar c xs with
    | [] => [[x]]
    | h :: t => if x = c then [] :: h :: t else (x :: h) :: t

/-- Python `str.split(c)` lifted to `String`. -/
def pySplit (s : String) (c : Char) : List String :=
  (splitOnChar c s.data).map String.mk

/-- Python `str.strip()`: drop whitespace from both ends. -/
def pyStrip (s : String) : String :=
  String.mk (((s.data.dropWhile Char.isWhitespace).reverse.dropWhile
    Char.isWhitespace).reverse)

/-- Python `str.isdigit()` (ASCII): nonempty and every character a
decimal digit. -/
def pyIsdigit (s : String) : Bool :=
  !s.data.isEmpty && s.data.all Char.isDigit

/-- Python `int(...)` on a string of decimal digits. -/
def digitsToNat (l : List Char) : Nat :=
  l.foldl (fun acc c => acc * 10 + (c.toNat - Char.toNat '0')) 0

/-- `signal = int(parts[1]) if parts[1].isdigit() else -100`
(line 569 of `wifi_connect.py`). -/
def parseSignal (field : String) : Int :=
  if pyIsdigit field then (digitsToNat field.data : Int) else -100

/-- `security = parts[2].strip() if parts[2] else 'Open'` (line 570). -/
def parseSecurity (field : String) : String :=
  if field ≠ "" then pyStrip field else "Open"

/-- One iteration of the parsing loop in `scan_wifi_networks`
(lines 562-570 plus the `if ssid` validity check): `none` when the line
is skipped (empty line, fewer than 3 `:`-separated parts, or empty
ssid after stripping). The `seen_ssids` dedup check is kept separate in
`scanLoop` below, as in the source. -/
def parseLine (line : String) : Option Network :=
  if line = "" then none
  else
    let parts := pySplit line ':'
    if parts.length ≥ 3 then
      let ssid := pyStrip (parts.getD 0 "")
      if ssid ≠ "" then
        some { ssid := ssid,
               signal := parseSignal (parts.getD 1 ""),
               security := parseSecurity (parts.getD 2 "") }
      else none
    else none

/-- The accumulation loop of `scan_wifi_networks` (lines 562-579):
append each valid record whose ssid is not yet in `seen_ssids`, in line
order, recording the ssid as seen. -/
def scanLoop (seen : List String) : List String → List Network
  | [] => []
  | line :: rest =>
    match parseLine line with
    | none => scanLoop seen rest
    | some n =>
      if seen.contains n.ssid then scanLoop seen rest
      else n :: scanLoop (n.ssid :: seen) rest

/-- `networks.sort(key=lambda x: x['signal'], reverse=True)` compares
records by signal, strongest first; Python's sort is stable, which the
stable `List.mergeSort` with this `le` mirrors exactly. -/
def signalDescLe (a b : Network) : Bool :=
  decide (b.signal ≤ a.signal)

/-- `scan_wifi_networks` on the lines of the external tool's output
(`result.stdout.strip().split('\n')`): parse, de-duplicate by ssid
keeping the first occurrence, then sort by descending signal
(lines 551-583). -/
def scan_wifi_networks (lines : List String) : List Network :=
  (scanLoop [] lines).mergeSort signalDescLe

/-- The valid (parsed, nonempty-ssid) records of a scan output in raw
line order, before de-duplication. -/
def validRecords (lines : List String) : List Network :=
  lines.filterMap parseLine

/-- Outcome of the `nmcli device wifi connect` subprocess call at
line 615 (`subprocess.run(cmd, ..., timeout=30)`): it completes within
the 30-second bound with an exit code and stderr text, raises
`TimeoutExpired`, or raises some other exception. -/
inductive JoinResult where
  | exit (code : Nat) (stderrText : String)
  | timeout
  | exc (msg : String)
deriving DecidableEq, Repr

/-- The external environment a single `connect_to_network` call
observes: the outcome of the join command and the stdout of the
`nmcli device show` IP check (line 623). -/
structure Env where
  joinResult : JoinResult
  ipCheckOut : String
deriving DecidableEq, Repr

/-- Whether the first list is an initial segment of the second. -/
def charsStartWith : List Char → List Char → Bool
  | [], _ => true
  | _ :: _, [] => false
  | a :: as, b :: bs => a = b && charsStartWith as bs

/-- Python's `needle in hay` substring test on character lists. -/
def charsContain (needle : List Char) : List Char → Bool
  | [] => needle.isEmpty
  | c :: cs => charsStartWith needle (c :: cs) || charsContain needle cs

/-- `connect_to_network(ssid, password)` (lines 589-642), with the
mutable `self.connection_status` threaded explicitly: returns the new
status and the boolean result.  On exit code 0 the status is set to
"connected" and `True` is returned whether or not `IP4.ADDRESS` appears
in the interface query; non-zero exit, `TimeoutExpired` and any other
exception return `False` leaving the status unchanged. -/
def connect_to_network (status : String) (env : Env) : String × Bool :=
  match env.joinResult with
  | .timeout => (status, false)
  | .exc _ => (status, false)
  | .exit code _ =>
    if code = 0 then
      if charsContain "IP4.ADDRESS".data env.ipCheckOut.data then
        ("connected", true)
      else
        ("connected", true)
    else (status, false)

/-- The JSON body of a `POST /connect` request, as read by
`data.get('ssid')` / `data.get('password', '')`: `ssid` is `none` when
the key is missing. -/
structure ConnectRequest where
  ssid : Option String
  password : String
deriving DecidableEq, Repr

/-- The JSON envelopes produced by `jsonify` in the `/connect` handler:
only the keys the handler actually sets are modelled, absent keys are
`none`. -/
structure ApiResponse where
  success : Bool
  message : Option String := none
  error : Option String := none
  connected : Option Bool := none
  ssid : Option String := none
deriving DecidableEq, Repr

/-- What one `/connect` request leaves behind: the response, the
`connection_status` afterwards, how many background shutdown threads
were started (line 76), and how many times `connect_to_network` was
invoked. -/
structure HandlerOutcome where
  response : ApiResponse
  status : String
  teardownTasks : Nat
  adapterCalls : Nat
deriving DecidableEq, Repr

/-- The `/connect` route handler `connect_wifi` (lines 57-92).
`if not ssid` rejects both a missing key and an empty string before any
adapter call; otherwise `connect_to_network` runs once and, on success,
exactly one daemon thread running `shutdown_hotspot_delayed` is started
before the success envelope is returned (the thread sleeps 5 seconds,
so the response is not blocked). -/
def connect_wifi (status : String) (req : ConnectRequest) (env : Env) :
    HandlerOutcome :=
  let reject : HandlerOutcome :=
    { response := { success := false, error := some "SSID is required" },
      status := status, teardownTasks := 0, adapterCalls := 0 }
  match req.ssid with
  | none => reject
  | some s =>
    if s = "" then reject
    else
      let r := connect_to_network status env
      if r.2 then
        { response :=
            { success := true,
              message := some ("Successfully connected to " ++ s ++
                "! Portal will shut down in a few seconds."),
              connected := some true,
              ssid := some s },
          status := r.1, teardownTasks := 1, adapterCalls := 1 }
      else
        { response :=
            { success := false,
              error := some
                "Failed to connect to network. Please check your credentials and try again." },
          status := r.1, teardownTasks := 0, adapterCalls := 1 }

/-- The route table registered by `setup_routes` (lines 36-101):
path and allowed method.  Flask's default method is GET; only
`/connect` declares `methods=['POST']`.  No `/shutdown` route is ever
registered. -/
def registeredRoutes : List (String × String) :=
  [("/", "GET"), ("/portal", "GET"), ("/scan", "GET"),
   ("/connect", "POST"), ("/status", "GET")]

/-- Route dispatch: the method registered for a path, or `none`
(Flask answers 404) when no rule matches the path. -/
def routeLookup (path : String) : Option String :=
  (registeredRoutes.find? (fun r => r.1 = path)).map (fun r => r.2)

/-- The portal page's `shutdownPortal()` JavaScript issues
`fetch('/shutdown', {method: 'POST'})` (lines 517-523): the page
expects the server to expose this endpoint. -/
def portalPageShutdownTarget : String := "/shutdown"

/-- One externally-triggered operation of the running process, for the
`connection_status` state machine: the four registered handlers (only
`/connect` can write the status) and the background hotspot shutdown. -/
inductive Op where
  | scanOp (lines : List String)
  | connectOp (req : ConnectRequest) (env : Env)
  | statusOp
  | pageOp
  | hotspotShutdownOp

/-- The effect of one operation on `connection_status`: only
`connect_wifi` can change it (via `connect_to_network`, line 619);
every other handler and `shutdown_hotspot` leave it untouched. -/
def stepStatus (status : String) : Op → String
  | .connectOp req env => (connect_wifi status req env).status
  | _ => status

/-- The sequence of `connection_status` values along a run: the value
before each operation and after the last. -/
def statusTrace (status : String) : List Op → List String
  | [] => [status]
  | op :: ops => status :: statusTrace (stepStatus status op) ops

/-- Number of adjacent changes of value in a trace. -/
def transCount : List String → Nat
  | a :: b :: rest => (if a ≠ b then 1 else 0) + transCount (b :: rest)
  | _ => 0

/-! ### Helper lemmas -/

lemma connect_to_network_snd_true_iff (status : String) (env : Env) :
    (connect_to_network status env).2 = true ↔
      ∃ m, env.joinResult = JoinResult.exit 0 m := by
  cases h : env.joinResult with
  | exit code m =>
    by_cases hc : code = 0 <;>
      simp [connect_to_network, h, hc]
  | timeout => simp [connect_to_network, h]
  | exc m => simp [connect_to_network, h]

lemma connect_to_network_fst_of_true (status : String) (env : Env)
    (h : (connect_to_network status env).2 = true) :
    (connect_to_network status env).1 = "connected" := by
  cases hj : env.joinResult with
  | exit code m =>
    by_cases hc : code = 0 <;> simp [connect_to_network, hj, hc] at h ⊢
  | timeout => simp [connect_to_network, hj] at h
  | exc m => simp [connect_to_network, hj] at h

lemma connect_to_network_fst_of_false (status : String) (env : Env)
    (h : (connect_to_network status env).2 = false) :
    (connect_to_network status env).1 = status := by
  cases hj : env.joinResult with
  | exit code m =>
    by_cases hc : code = 0 <;> simp [connect_to_network, hj, hc] at h ⊢
  | timeout => simp [connect_to_network, hj]
  | exc m => simp [connect_to_network, hj]

lemma connect_to_network_snd_false (status : String) (env : Env)
    (h : ∀ m, env.joinResult ≠ JoinResult.exit 0 m) :
    (connect_to_network status env).2 = false := by
  cases hb : (connect_to_network status env).2
  · rfl
  · obtain ⟨m, hm⟩ := (connect_to_network_snd_true_iff status env).mp hb
    exact absurd hm (h m)

lemma scanLoop_mem_spec :
    ∀ (lines : List String) (seen : List String) (r : Network),
      r ∈ scanLoop seen lines →
        r.ssid ∉ seen ∧
          (validRecords lines).find? (fun n => n.ssid == r.ssid) = some r := by
  intro lines
  induction lines with
  | nil => intro seen r hr; simp [scanLoop] at hr
  | cons line rest ih =>
    intro seen r hr
    cases hp : parseLine line with
    | none =>
      simp only [scanLoop, hp] at hr
      have h := ih seen r hr
      simpa [validRecords, List.filterMap_cons, hp] using h
    | some n =>
      simp only [scanLoop, hp] at hr
      by_cases hseen : seen.contains n.ssid
      · rw [if_pos hseen] at hr
        obtain ⟨hnot, hfind⟩ := ih seen r hr
        refine ⟨hnot, ?_⟩
        have hne : (n.ssid == r.ssid) = false := by
          have : n.ssid ≠ r.ssid := by
            intro he
            exact hnot (he ▸ (show n.ssid ∈ seen by simpa using hseen))
          simpa using this
        simp [validRecords, List.filterMap_cons, hp, List.find?_cons, hne]
        simpa [validRecords] using hfind
      · rw [if_neg hseen] at hr
        rcases List.mem_cons.mp hr with he | ht
        · subst he
          refine ⟨fun hc => hseen (by simpa using hc), ?_⟩
          simp [validRecords, List.filterMap_cons, hp, List.find?_cons]
        · obtain ⟨hnot, hfind⟩ := ih (n.ssid :: seen) r ht
          have hns : r.ssid ∉ seen := fun hc => hnot (List.mem_cons_of_mem _ hc)
          have hne : (n.ssid == r.ssid) = false := by
            have : n.ssid ≠ r.ssid := by
              intro he
              exact hnot (he ▸ List.mem_cons_self _ _)
            simpa using this
          refine ⟨hns, ?_⟩
          simp [validRecords, List.filterMap_cons, hp, List.find?_cons, hne]
          simpa [validRecords] using hfind

lemma scanLoop_map_ssid_nodup :
    ∀ (lines : List String) (seen : List String),
      ((scanLoop seen lines).map Network.ssid).Nodup := by
  intro lines
  induction lines with
  | nil => intro seen; simp [scanLoop]
  | cons line rest ih =>
    intro seen
    cases hp : parseLine line with
    | none => simp only [scanLoop, hp]; exact ih seen
    | some n =>
      simp only [scanLoop, hp]
      by_cases hseen : seen.contains n.ssid
      · rw [if_pos hseen]; exact ih seen
      · rw [if_neg hseen]
        rw [List.map_cons, List.nodup_cons]
        refine ⟨?_, ih (n.ssid :: seen)⟩
        intro hmem
        obtain ⟨r, hr, he⟩ := List.mem_map.mp hmem
        obtain ⟨hnot, _⟩ := scanLoop_mem_spec rest (n.ssid :: seen) r hr
        exact hnot (he ▸ List.mem_cons_self _ _)

lemma signalDescLe_trans :
    ∀ a b c : Network, signalDescLe a b → signalDescLe b c → signalDescLe a c := by
  intro a b c hab hbc
  simp [signalDescLe] at hab hbc ⊢
  omega

lemma signalDescLe_total : ∀ a b : Network, signalDescLe a b || signalDescLe b a := by
  intro a b
  simp [signalDescLe]
  omega

lemma parseSignal_cases (f : String) :
    0 ≤ parseSignal f ∨ parseSignal f = -100 := by
  unfold parseSignal
  by_cases h : pyIsdigit f
  · left; simp [h]
  · right; simp [h]

lemma mergeSort_singleton (a : Network) :
    List.mergeSort [a] signalDescLe = [a] := by
  simp [List.mergeSort]

lemma successMsg_ne_empty (s : String) :
    ("Successfully connected to " ++ s ++
      "! Portal will shut down in a few seconds.") ≠ "" := by
  intro h
  have h2 := congrArg String.length h
  rw [String.length_append, String.length_append] at h2
  have h3 : (0 : Nat) < "! Portal will shut down in a few seconds.".length := by
    decide
  have h4 : ("" : String).length = 0 := rfl
  omega

lemma connect_wifi_status_cases (status : String) (req : ConnectRequest)
    (env : Env) :
    (connect_wifi status req env).status = status ∨
      (connect_wifi status req env).status = "connected" := by
  cases hs : req.ssid with
  | none => left; simp [connect_wifi, hs]
  | some s =>
    by_cases he : s = ""
    · left; simp [connect_wifi, hs, he]
    · cases hb : (connect_to_network status env).2 with
      | false =>
        left
        have hf := connect_to_network_fst_of_false status env hb
        simp [connect_wifi, hs, he, hb, hf]
      | true =>
        right
        have hf := connect_to_network_fst_of_true status env hb
        simp [connect_wifi, hs, he, hb, hf]

lemma stepStatus_cases (s : String) (op : Op) :
    stepStatus s op = s ∨ stepStatus s op = "connected" := by
  cases op with
  | scanOp lines => left; rfl
  | connectOp req env => exact connect_wifi_status_cases s req env
  | statusOp => left; rfl
  | pageOp => left; rfl
  | hotspotShutdownOp => left; rfl

lemma stepStatus_connected (op : Op) : stepStatus "connected" op = "connected" := by
  rcases stepStatus_cases "connected" op with h | h <;> exact h

lemma statusTrace_head (s : String) (ops : List Op) :
    ∃ rest, statusTrace s ops = s :: rest := by
  cases ops with
  | nil => exact ⟨[], rfl⟩
  | cons op ops => exact ⟨_, rfl⟩

lemma transCount_connected : ∀ ops : List Op,
    transCount (statusTrace "connected" ops) = 0 := by
  intro ops
  induction ops with
  | nil => rfl
  | cons op ops ih =>
    rw [statusTrace, stepStatus_connected]
    obtain ⟨rest, hr⟩ := statusTrace_head "connected" ops
    rw [hr] at ih ⊢
    simp only [transCount]
    simp [ih]

lemma transCount_le_one_aux : ∀ (ops : List Op) (s : String),
    transCount (statusTrace s ops) ≤ 1 := by
  intro ops
  induction ops with
  | nil => intro s; simp [statusTrace, transCount]
  | cons op ops ih =>
    intro s
    rw [statusTrace]
    rcases stepStatus_cases s op with h | h
    · rw [h]
      obtain ⟨rest, hr⟩ := statusTrace_head s ops
      have hih := ih s
      rw [hr] at hih ⊢
      simp only [transCount]
      simpa using hih
    · rw [h]
      obtain ⟨rest, hr⟩ := statusTrace_head "connected" ops
      have h0 := transCount_connected ops
      rw [hr] at h0 ⊢
      simp only [transCount]
      rw [h0]
      split <;> simp

lemma parseLine_signal (line : String) (r : Network)
    (h : parseLine line = some r) :
    r.signal = parseSignal ((pySplit line ':').getD 1 "") := by
  simp only [parseLine] at h
  split at h
  · exact absurd h (by simp)
  · split at h
    · split at h
      · injection h with hr
        subst hr
        rfl
      · exact absurd h (by simp)
    · exact absurd h (by simp)

lemma scanLoop_mem_valid (lines : List String) (r : Network)
    (h : r ∈ scanLoop [] lines) : r ∈ validRecords lines :=
  List.mem_of_find?_eq_some (scanLoop_mem_spec lines [] r h).2

lemma validRecords_signal (lines : List String) (r : Network)
    (h : r ∈ validRecords lines) : 0 ≤ r.signal ∨ r.signal = -100 := by
  obtain ⟨line, _, hp⟩ := List.mem_filterMap.mp h
  rw [parseLine_signal line r hp]
  exact parseSignal_cases _

/-! ### Claim theorems -/

/-- C1: the claim says `POST /shutdown` is a registered endpoint that
tears down the access point, returns `{success:true}` and exits.  In
the code `setup_routes` registers only `/`, `/portal`, `/scan`,
`/connect` and `/status`; no rule matches `/shutdown`, so Flask answers
404 — even though the portal page's own `shutdownPortal()` script
issues `fetch('/shutdown', {method: 'POST'})` expecting a success
envelope. -/
theorem shutdown_route_not_registered :
    routeLookup portalPageShutdownTarget = none ∧
      portalPageShutdownTarget = "/shutdown" := by
  constructor
  · rfl
  · rfl

/-- C2: a `/connect` request with a nonempty ssid whose adapter join
reports success returns a success envelope with `connected:true`, the
echoed ssid and a nonempty message, sets `connection_status` to
"connected", and schedules exactly one deferred teardown thread. -/
theorem connect_success_envelope (status : String) (req : ConnectRequest)
    (env : Env) (s : String) (hs : req.ssid = some s) (hne : s ≠ "")
    (hjoin : (connect_to_network status env).2 = true) :
    (connect_wifi status req env).response.success = true ∧
    (connect_wifi status req env).response.connected = some true ∧
    (connect_wifi status req env).response.ssid = some s ∧
    (∃ m, (connect_wifi status req env).response.message = some m ∧ m ≠ "") ∧
    (connect_wifi status req env).status = "connected" ∧
    (connect_wifi status req env).teardownTasks = 1 := by
  have hfst := connect_to_network_fst_of_true status env hjoin
  refine ⟨?_, ?_, ?_,
    ⟨"Successfully connected to " ++ s ++
      "! Portal will shut down in a few seconds.", ?_, successMsg_ne_empty s⟩,
    ?_, ?_⟩ <;>
  simp [connect_wifi, hs, hne, hjoin, hfst]

/-- Witness for C2 at a concrete request and environment. -/
theorem connect_success_envelope_witness :
    (connect_wifi "disconnected" ⟨some "Home", "pw"⟩
        ⟨JoinResult.exit 0 "", "GENERAL.DEVICE: wlan0"⟩).response.success = true ∧
    (connect_wifi "disconnected" ⟨some "Home", "pw"⟩
        ⟨JoinResult.exit 0 "", "GENERAL.DEVICE: wlan0"⟩).response.connected = some true ∧
    (connect_wifi "disconnected" ⟨some "Home", "pw"⟩
        ⟨JoinResult.exit 0 "", "GENERAL.DEVICE: wlan0"⟩).response.ssid = some "Home" ∧
    (∃ m, (connect_wifi "disconnected" ⟨some "Home", "pw"⟩
        ⟨JoinResult.exit 0 "", "GENERAL.DEVICE: wlan0"⟩).response.message = some m ∧ m ≠ "") ∧
    (connect_wifi "disconnected" ⟨some "Home", "pw"⟩
        ⟨JoinResult.exit 0 "", "GENERAL.DEVICE: wlan0"⟩).status = "connected" ∧
    (connect_wifi "disconnected" ⟨some "Home", "pw"⟩
        ⟨JoinResult.exit 0 "", "GENERAL.DEVICE: wlan0"⟩).teardownTasks = 1 :=
  connect_success_envelope "disconnected" ⟨some "Home", "pw"⟩
    ⟨JoinResult.exit 0 "", "GENERAL.DEVICE: wlan0"⟩ "Home" rfl (by decide) (by decide)

/-- C3: a `/connect` request with a nonempty ssid whose join attempt
does not report success (non-zero exit, timeout, or exception) returns
an error envelope with `success:false` and leaves `connection_status`
at "disconnected". -/
theorem connect_failure_leaves_disconnected (req : ConnectRequest)
    (env : Env) (s : String) (hs : req.ssid = some s) (hne : s ≠ "")
    (hfail : ∀ m, env.joinResult ≠ JoinResult.exit 0 m) :
    (connect_wifi "disconnected" req env).response.success = false ∧
    (connect_wifi "disconnected" req env).response.error =
      some "Failed to connect to network. Please check your credentials and try again." ∧
    (connect_wifi "disconnected" req env).status = "disconnected" := by
  have hsnd := connect_to_network_snd_false "disconnected" env hfail
  have hfst := connect_to_network_fst_of_false "disconnected" env hsnd
  refine ⟨?_, ?_, ?_⟩ <;> simp [connect_wifi, hs, hne, hsnd, hfst]

/-- Witness for C3 at a concrete failing environment (exit code 1). -/
theorem connect_failure_leaves_disconnected_witness :
    (connect_wifi "disconnected" ⟨some "Home", "pw"⟩
        ⟨JoinResult.exit 1 "activation failed", ""⟩).response.success = false ∧
    (connect_wifi "disconnected" ⟨some "Home", "pw"⟩
        ⟨JoinResult.exit 1 "activation failed", ""⟩).response.error =
      some "Failed to connect to network. Please check your credentials and try again." ∧
    (connect_wifi "disconnected" ⟨some "Home", "pw"⟩
        ⟨JoinResult.exit 1 "activation failed", ""⟩).status = "disconnected" :=
  connect_failure_leaves_disconnected ⟨some "Home", "pw"⟩
    ⟨JoinResult.exit 1 "activation failed", ""⟩ "Home" rfl (by decide)
    (by intro m; simp)

/-- C4: a `/connect` request with the ssid key missing or empty gets
the validation-error envelope immediately; the adapter is never
invoked, no teardown is scheduled, and the status is unchanged. -/
theorem connect_missing_ssid_validation (status : String)
    (req : ConnectRequest) (env : Env)
    (h : req.ssid = none ∨ req.ssid = some "") :
    (connect_wifi status req env).response =
      { success := false, error := some "SSID is required" } ∧
    (connect_wifi status req env).adapterCalls = 0 ∧
    (connect_wifi status req env).teardownTasks = 0 ∧
    (connect_wifi status req env).status = status := by
  rcases h with h | h <;> simp [connect_wifi, h]

/-- Witness for C4 at a request with no ssid key. -/
theorem connect_missing_ssid_validation_witness :
    (connect_wifi "disconnected" ⟨none, "pw"⟩
        ⟨JoinResult.exit 0 "", ""⟩).response =
      { success := false, error := some "SSID is required" } ∧
    (connect_wifi "disconnected" ⟨none, "pw"⟩
        ⟨JoinResult.exit 0 "", ""⟩).adapterCalls = 0 ∧
    (connect_wifi "disconnected" ⟨none, "pw"⟩
        ⟨JoinResult.exit 0 "", ""⟩).teardownTasks = 0 ∧
    (connect_wifi "disconnected" ⟨none, "pw"⟩
        ⟨JoinResult.exit 0 "", ""⟩).status = "disconnected" :=
  connect_missing_ssid_validation "disconnected" ⟨none, "pw"⟩
    ⟨JoinResult.exit 0 "", ""⟩ (Or.inl rfl)

/-- C5: for every scan output, each ssid appears at most once in the
result, the result is sorted by descending signal, and the record kept
for an ssid is the first valid record with that ssid in raw line order
(`find?` returns the first match). -/
theorem scan_dedup_first_and_sorted (lines : List String) :
    ((scan_wifi_networks lines).map Network.ssid).Nodup ∧
    (scan_wifi_networks lines).Pairwise (fun a b => b.signal ≤ a.signal) ∧
    ∀ r ∈ scan_wifi_networks lines,
      (validRecords lines).find? (fun n => n.ssid == r.ssid) = some r := by
  refine ⟨?_, ?_, ?_⟩
  · have hperm :=
      (List.mergeSort_perm (scanLoop [] lines) signalDescLe).map Network.ssid
    exact hperm.nodup_iff.mpr (scanLoop_map_ssid_nodup lines [])
  · have hs := List.sorted_mergeSort signalDescLe_trans signalDescLe_total
      (scanLoop [] lines)
    exact hs.imp (fun h => of_decide_eq_true h)
  · intro r hr
    exact (scanLoop_mem_spec lines [] r (List.mem_mergeSort.mp hr)).2

/-- Witness for C5 on a concrete scan output with a duplicate ssid. -/
theorem scan_dedup_first_and_sorted_witness :
    ((scan_wifi_networks ["B:10:Open", "A:30:WPA2", "A:80:WPA2"]).map
        Network.ssid).Nodup ∧
    (scan_wifi_networks ["B:10:Open", "A:30:WPA2", "A:80:WPA2"]).Pairwise
      (fun a b => b.signal ≤ a.signal) ∧
    (validRecords ["B:10:Open", "A:30:WPA2", "A:80:WPA2"]).find?
      (fun n => n.ssid == "A") = some ⟨"A", 30, "WPA2"⟩ := by
  obtain ⟨h1, h2, h3⟩ :=
    scan_dedup_first_and_sorted ["B:10:Open", "A:30:WPA2", "A:80:WPA2"]
  refine ⟨h1, h2, ?_⟩
  exact h3 ⟨"A", 30, "WPA2"⟩ (List.mem_mergeSort.mpr (by decide))

/-- C6 counterexample: on the scan output `["A:30:WPA2", "A:80:WPA2"]`
the record kept for "A" has signal 30 (the first raw occurrence), not
the strongest signal 80 — de-duplication happens before sorting, so the
claim that the strongest record wins is false. -/
theorem scan_strongest_not_kept_cex :
    ¬ (∀ r ∈ scan_wifi_networks ["A:30:WPA2", "A:80:WPA2"],
        ∀ n ∈ validRecords ["A:30:WPA2", "A:80:WPA2"],
          n.ssid = r.ssid → n.signal ≤ r.signal) := by
  intro h
  have hm : (⟨"A", 30, "WPA2"⟩ : Network) ∈
      scan_wifi_networks ["A:30:WPA2", "A:80:WPA2"] :=
    List.mem_mergeSort.mpr (by decide)
  have h80 : (⟨"A", 80, "WPA2"⟩ : Network) ∈
      validRecords ["A:30:WPA2", "A:80:WPA2"] := by decide
  have hle := h _ hm _ h80 rfl
  exact absurd hle (by decide)

/-- C6 (amended): the record kept for a duplicated ssid is the first
occurrence in raw record order — de-duplication happens before the
sort — and it is a valid record of the scan output. -/
theorem scan_kept_is_first_occurrence (lines : List String) (r : Network)
    (hr : r ∈ scan_wifi_networks lines) :
    r ∈ validRecords lines ∧
    (validRecords lines).find? (fun n => n.ssid == r.ssid) = some r := by
  have h2 := (scanLoop_mem_spec lines [] r (List.mem_mergeSort.mp hr)).2
  exact ⟨List.mem_of_find?_eq_some h2, h2⟩

/-- Witness for the amended C6 on a concrete duplicated scan output. -/
theorem scan_kept_is_first_occurrence_witness :
    (⟨"A", 30, "WPA2"⟩ : Network) ∈ validRecords ["A:30:WPA2", "A:80:WPA2"] ∧
    (validRecords ["A:30:WPA2", "A:80:WPA2"]).find?
      (fun n => n.ssid == (⟨"A", 30, "WPA2"⟩ : Network).ssid) =
        some ⟨"A", 30, "WPA2"⟩ :=
  scan_kept_is_first_occurrence ["A:30:WPA2", "A:80:WPA2"] ⟨"A", 30, "WPA2"⟩
    (List.mem_mergeSort.mpr (by decide))

/-- C7: `connect_to_network` reports success exactly when the join
command completes within the bounded wait with exit status 0: timeout
returns false (not a crash — the function is total), non-zero exit
returns false, and zero exit returns true for every interface-query
output, including one with no assigned address. -/
theorem join_success_iff_exit_zero (status : String) (env : Env) :
    ((connect_to_network status env).2 = true ↔
      ∃ m, env.joinResult = JoinResult.exit 0 m) ∧
    (∀ out, (connect_to_network status
      ⟨JoinResult.timeout, out⟩).2 = false) ∧
    (∀ out m, (connect_to_network status
      ⟨JoinResult.exit 0 m, out⟩).2 = true) ∧
    (∀ out c m, c ≠ 0 → (connect_to_network status
      ⟨JoinResult.exit c m, out⟩).2 = false) := by
  refine ⟨connect_to_network_snd_true_iff status env, ?_, ?_, ?_⟩
  · intro out; rfl
  · intro out m; simp [connect_to_network]
  · intro out c m hc; simp [connect_to_network, hc]

/-- Witness for C7: a non-zero exit at a concrete input reports
failure. -/
theorem join_success_iff_exit_zero_witness :
    (connect_to_network "disconnected"
      ⟨JoinResult.exit 1 "err", ""⟩).2 = false :=
  (join_success_iff_exit_zero "disconnected"
    ⟨JoinResult.exit 1 "err", ""⟩).2.2.2 "" 1 "err" (by decide)

/-- C8 counterexample: on the spec's three-record scenario the signal
field "-40" is not a digit string, so the kept record's signal is -100,
not -40: the claimed result list is not the computed one. -/
theorem scan_scenario_signal_cex :
    scan_wifi_networks ["Home-5G:-40:WPA2", "Home-5G:-70:WPA2", ":-50:"] ≠
      [({ ssid := "Home-5G", signal := -40, security := "WPA2" } : Network)] := by
  have h : scanLoop [] ["Home-5G:-40:WPA2", "Home-5G:-70:WPA2", ":-50:"] =
      [{ ssid := "Home-5G", signal := -100, security := "WPA2" }] := by decide
  unfold scan_wifi_networks
  rw [h, mergeSort_singleton]
  decide

/-- C8 (amended): the scenario returns exactly one record for
"Home-5G" with security "WPA2", but with signal -100 (the fallback for
a non-digit signal field), the duplicate and the empty-name record
being dropped. -/
theorem scan_scenario_amended :
    scan_wifi_networks ["Home-5G:-40:WPA2", "Home-5G:-70:WPA2", ":-50:"] =
      [({ ssid := "Home-5G", signal := -100, security := "WPA2" } : Network)] := by
  have h : scanLoop [] ["Home-5G:-40:WPA2", "Home-5G:-70:WPA2", ":-50:"] =
      [{ ssid := "Home-5G", signal := -100, security := "WPA2" }] := by decide
  unfold scan_wifi_networks
  rw [h, mergeSort_singleton]

/-- C9: over any sequence of operations starting from "disconnected",
the `connection_status` value changes at most once along the trace, and
no operation ever moves it off "connected". -/
theorem connection_status_at_most_one_transition (ops : List Op) :
    transCount (statusTrace "disconnected" ops) ≤ 1 ∧
    ∀ op, stepStatus "connected" op = "connected" :=
  ⟨transCount_le_one_aux ops "disconnected", stepStatus_connected⟩

/-- C10: the parsed signal equals the decimal value of the signal field
only when the field is a nonempty string of digits; any other field —
including "-40" and the empty string — yields -100, so every record in
any scan result carries either a nonnegative decimal signal or -100. -/
theorem signal_field_parsing (lines : List String) (f : String) :
    (parseSignal f = -100 ∨
      (pyIsdigit f = true ∧ parseSignal f = (digitsToNat f.data : Int))) ∧
    parseSignal "-40" = -100 ∧ parseSignal "" = -100 ∧ parseSignal "40" = 40 ∧
    (∀ r ∈ scan_wifi_networks lines, 0 ≤ r.signal ∨ r.signal = -100) := by
  refine ⟨?_, by decide, by decide, by decide, ?_⟩
  · by_cases h : pyIsdigit f
    · right; exact ⟨h, by simp [parseSignal, h]⟩
    · left; simp [parseSignal, h]
  · intro r hr
    exact validRecords_signal lines r
      (scanLoop_mem_valid lines r (List.mem_mergeSort.mp hr))

/-- Witness for C10 at a concrete scan output and record. -/
theorem signal_field_parsing_witness :
    (0 : Int) ≤ (⟨"X", 40, "WPA2"⟩ : Network).signal ∨
      (⟨"X", 40, "WPA2"⟩ : Network).signal = -100 :=
  (signal_field_parsing ["X:40:WPA2"] "40").2.2.2.2 ⟨"X", 40, "WPA2"⟩
    (List.mem_mergeSort.mpr (by decide))
